import Mathlib

/-!
# Verification of the repository-stats backend

Shallow embedding of the two source files of the repository:

* `src/backend/app/api/v1/repo_stats.py` — the request handler, with the
  `parse_repo_url` identifier parser and the `analyze_repository` endpoint;
* `src/backend/app/services/github/repo_stats.py` — the stats aggregator
  service (`get_pull_requests`, `get_issues`, `get_commit_activity`,
  `get_comprehensive_stats`, …).

Pure functions of the source become Lean functions; each fetcher is modelled
as a function of the decoded upstream payload (an `Option`, `none` standing
for the request-failed / 404 / non-list cases that `_make_request` collapses
to `None`); JSON dicts become structures whose fields are `Option`s, so that
Python's `d.get(key, default)` is `field.getD default`.
-/

/-! ## Python string primitives used by `parse_repo_url`

`repo_input.strip().rstrip('/').rstrip('.git')` — note that Python's
`rstrip(chars)` removes the longest trailing run of characters drawn from
the set `chars`, not the literal suffix. -/

/-- Python `str.isspace` characters relevant to `str.strip()`. -/
def isPySpace (c : Char) : Bool :=
  c == ' ' || c == '\t' || c == '\n' || c == '\r' || c == '\x0b' || c == '\x0c'

/-- Python `s.strip()` on a list of characters. -/
def pyStrip (s : List Char) : List Char :=
  ((s.dropWhile isPySpace).reverse.dropWhile isPySpace).reverse

/-- Python `s.rstrip(chars)`: drop the longest trailing run of characters
belonging to `chars`. -/
def pyRstrip (chars : List Char) (s : List Char) : List Char :=
  (s.reverse.dropWhile (fun c => chars.contains c)).reverse

/-- The normalization in `parse_repo_url`:
`repo_input.strip().rstrip('/').rstrip('.git')`. -/
def normalizeInput (s : List Char) : List Char :=
  pyRstrip ['.', 'g', 'i', 't'] (pyRstrip ['/'] (pyStrip s))

/-! ## The two regular expressions of `parse_repo_url`

Pattern 1: `re.search(r'github\.com[:/]([^/]+)/([^/]+?)(?:\.git)?$', s)`.
Pattern 2: `re.search(r'^([a-zA-Z0-9][-a-zA-Z0-9]*)/([a-zA-Z0-9._-]+)$', s)`.
Both are implemented directly, following the regex semantics. -/

/-- `[a-zA-Z0-9]` (the regexes are ASCII). -/
def isAsciiAlnum (c : Char) : Bool :=
  (c ≥ 'a' && c ≤ 'z') || (c ≥ 'A' && c ≤ 'Z') || (c ≥ '0' && c ≤ '9')

/-- Character class `[-a-zA-Z0-9]` for the owner of the shorthand pattern. -/
def isOwnerChar (c : Char) : Bool := isAsciiAlnum c || c == '-'

/-- Character class `[a-zA-Z0-9._-]` for the repo of the shorthand pattern. -/
def isRepoChar (c : Char) : Bool :=
  isAsciiAlnum c || c == '.' || c == '_' || c == '-'

/-- Python `s.split(sep)` for a single-character separator (never returns
an empty list; splitting the empty string gives `[[]]`). -/
def splitOnChar (sep : Char) : List Char → List (List Char)
  | [] => [[]]
  | c :: cs =>
    let r := splitOnChar sep cs
    if c == sep then [] :: r
    else
      match r with
      | [] => [[c]]
      | g :: gs => (c :: g) :: gs

/-- The non-greedy `([^/]+?)(?:\.git)?$` group: among the decompositions
`repo ++ ".git"` / `repo` of the final segment, the shortest non-empty
`repo` wins. -/
def stripDotGitSuffix (seg : List Char) : List Char :=
  if 4 < seg.length && seg.drop (seg.length - 4) == ['.', 'g', 'i', 't'] then
    seg.take (seg.length - 4)
  else seg

/-- Attempt the tail of URL pattern 1 right after a literal `github.com`:
one `[:/]` separator, then `([^/]+)/([^/]+?)(?:\.git)?$` anchored at the end
of the input. -/
def matchUrlTail (t : List Char) : Option (List Char × List Char) :=
  match t with
  | [] => none
  | c :: rest =>
    if c == ':' || c == '/' then
      match splitOnChar '/' rest with
      | [o, r] =>
        if o.isEmpty || r.isEmpty then none
        else some (o, stripDotGitSuffix r)
      | _ => none
    else none

/-- `re.search` of pattern 1: try every start position left to right; a
position matches when the literal `github.com` sits there and the remainder
of the string matches `[:/]([^/]+)/([^/]+?)(?:\.git)?$`. -/
def searchUrlPattern (s : List Char) : Option (List Char × List Char) :=
  match s with
  | [] => none
  | _ :: rest =>
    match
      (if List.isPrefixOf ("github.com".toList) s then matchUrlTail (s.drop 10)
       else none) with
    | some p => some p
    | none => searchUrlPattern rest

/-- Pattern 2, anchored on both sides:
`^([a-zA-Z0-9][-a-zA-Z0-9]*)/([a-zA-Z0-9._-]+)$`. -/
def matchShortPattern (s : List Char) : Option (List Char × List Char) :=
  match splitOnChar '/' s with
  | [o, r] =>
    match o with
    | [] => none
    | c :: cs =>
      if isAsciiAlnum c && cs.all isOwnerChar && !r.isEmpty && r.all isRepoChar
      then some (o, r)
      else none
  | _ => none

/-- A single-quote character, used when rebuilding the Python error
messages. -/
def sqc : String := String.mk [Char.ofNat 39]

/-- The error raised by `parse_repo_url`:
`ValueError(f"Invalid repository format: ...")` carrying the (normalized)
input and the two accepted syntaxes. -/
inductive ParseError where
  | invalidFormat (normalizedInput shortForm urlForm : String)
deriving Repr, DecidableEq

/-- `str(e)` of the parse `ValueError`. -/
def parseErrorStr : ParseError → String
  | .invalidFormat n f1 f2 =>
    "Invalid repository format: " ++ sqc ++ n ++ sqc ++ ". Expected: " ++
      sqc ++ f1 ++ sqc ++ " or " ++ sqc ++ f2 ++ sqc

/-- `parse_repo_url` of `src/backend/app/api/v1/repo_stats.py` (lines
127–145): normalize, then try the URL pattern and the shorthand pattern in
order, first match wins; otherwise raise `ValueError`. -/
def parse_repo_url (repo_input : String) : Except ParseError (String × String) :=
  let s := normalizeInput repo_input.toList
  match searchUrlPattern s with
  | some (o, r) => .ok (String.mk o, String.mk r)
  | none =>
    match matchShortPattern s with
    | some (o, r) => .ok (String.mk o, String.mk r)
    | none =>
      .error (.invalidFormat (String.mk s) "owner/repo"
        "https://github.com/owner/repo")

example : parse_repo_url "octocat/Hello-World" = .ok ("octocat", "Hello-World") := rfl
example : parse_repo_url "https://github.com/octocat/Hello-World" = .ok ("octocat", "Hello-World") := rfl
example : parse_repo_url "https://github.com/octocat/Hello-World.git" = .ok ("octocat", "Hello-World") := rfl
example : parse_repo_url "https://github.com/octocat/Hello-World/" = .ok ("octocat", "Hello-World") := rfl
example : parse_repo_url "git@github.com:octocat/Hello-World.git" = .ok ("octocat", "Hello-World") := rfl
example : parse_repo_url "foo/bart" = .ok ("foo", "bar") := rfl
example : (parse_repo_url "not a valid repo").isOk = false := rfl

/-! ## Payload item shapes (decoded JSON dicts)

Each structure holds exactly the keys the service reads; an `Option` field
is `none` when the key is absent (Python `d.get(k)` → `None`), matching
`d.get(k, default)` with `field.getD default`. -/

/-- The nested `user` object of a pull-request / issue item
(keys `login`, `avatar_url`, `html_url`). -/
structure UserItem where
  login : Option String := none
  avatar_url : Option String := none
  html_url : Option String := none
deriving Repr, DecidableEq

/-- A label object; only its `name` key is read. -/
structure LabelItem where
  name : Option String := none
deriving Repr, DecidableEq

/-- One decoded item of the pull-requests payload. -/
structure PRItem where
  state : Option String := none
  merged_at : Option String := none
  number : Option Nat := none
  title : Option String := none
  html_url : Option String := none
  created_at : Option String := none
  updated_at : Option String := none
  user : Option UserItem := none
  labels : List LabelItem := []
  comments : Option Nat := none
  draft : Option Bool := none
deriving Repr, DecidableEq

/-- The author dict built by the service:
`pr.get("user", {})` then `.get("login")` etc. -/
structure AuthorInfo where
  login : Option String
  avatar_url : Option String
  profile_url : Option String
deriving Repr, DecidableEq

/-- `{"login": ..., "avatar_url": ..., "profile_url": ...}` from an
optional `user` object (absent key → empty dict → all `None`). -/
def authorOf (u : Option UserItem) : AuthorInfo :=
  match u with
  | some user => ⟨user.login, user.avatar_url, user.html_url⟩
  | none => ⟨none, none, none⟩

/-- One entry of the `details` list built by `get_pull_requests`. -/
structure PRDetail where
  number : Option Nat
  title : Option String
  state : String
  url : Option String
  created_at : Option String
  updated_at : Option String
  author : AuthorInfo
  labels : List (Option String)
  comments : Nat
  draft : Bool
deriving Repr, DecidableEq

/-- The dict appended to `details` for one pull request, with the
`display_state` computed by the surrounding branch. -/
def mkPRDetail (pr : PRItem) (display_state : String) : PRDetail where
  number := pr.number
  title := pr.title
  state := display_state
  url := pr.html_url
  created_at := pr.created_at
  updated_at := pr.updated_at
  author := authorOf pr.user
  labels := pr.labels.map (fun label => label.name)
  comments := pr.comments.getD 0
  draft := pr.draft.getD false

/-- The result dict of `get_pull_requests`
(keys `open`, `closed`, `merged`, `total`, `details`). -/
structure PRStats where
  «open» : Nat
  closed : Nat
  merged : Nat
  total : Nat
  details : List PRDetail
deriving Repr, DecidableEq

/-- `{"open": 0, "closed": 0, "merged": 0, "total": 0, "details": []}` —
the empty default of `get_pull_requests`. -/
def emptyPRStats : PRStats := ⟨0, 0, 0, 0, []⟩

/-- One iteration of the `for pr in prs` loop of `get_pull_requests`
(lines 109–138): classify by `pr.get("state", "open")` and
`pr.get("merged_at") is not None`, bump the matching counter, append the
detail record with the chosen `display_state`. -/
def prStep (acc : PRStats) (pr : PRItem) : PRStats :=
  let pr_state := pr.state.getD "open"
  let is_merged := pr.merged_at.isSome
  if pr_state == "open" then
    { acc with «open» := acc.«open» + 1,
               details := acc.details ++ [mkPRDetail pr "open"] }
  else if is_merged then
    { acc with merged := acc.merged + 1,
               details := acc.details ++ [mkPRDetail pr "merged"] }
  else
    { acc with closed := acc.closed + 1,
               details := acc.details ++ [mkPRDetail pr "closed"] }

/-- `get_pull_requests` of
`src/backend/app/services/github/repo_stats.py` (lines 95–146), as a
function of the decoded payload: `none` for a failed request or non-list
body (`if not prs or not isinstance(prs, list)` also catches the empty
list). -/
def get_pull_requests (payload : Option (List PRItem)) : PRStats :=
  match payload with
  | none => emptyPRStats
  | some prs =>
    if prs.isEmpty then emptyPRStats
    else
      let r := prs.foldl prStep emptyPRStats
      { r with total := prs.length }

/-- One decoded item of the issues payload; `has_pull_request` records
whether the raw dict carries the `pull_request` key
(`"pull_request" in i`). -/
structure IssueItem where
  has_pull_request : Bool := false
  state : Option String := none
  number : Option Nat := none
  title : Option String := none
  html_url : Option String := none
  created_at : Option String := none
  user : Option UserItem := none
  labels : List LabelItem := []
  comments : Option Nat := none
deriving Repr, DecidableEq

/-- One entry of the `details` list built by `get_issues`. -/
structure IssueDetail where
  number : Option Nat
  title : Option String
  state : Option String
  url : Option String
  created_at : Option String
  author : AuthorInfo
  labels : List (Option String)
  comments : Nat
deriving Repr, DecidableEq

/-- The detail dict for one (genuine) issue. -/
def mkIssueDetail (i : IssueItem) : IssueDetail where
  number := i.number
  title := i.title
  state := i.state
  url := i.html_url
  created_at := i.created_at
  author := authorOf i.user
  labels := i.labels.map (fun label => label.name)
  comments := i.comments.getD 0

/-- The result dict of `get_issues`
(keys `open`, `closed`, `total`, `details`). -/
structure IssueStats where
  «open» : Nat
  closed : Nat
  total : Nat
  details : List IssueDetail
deriving Repr, DecidableEq

/-- `{"open": 0, "closed": 0, "total": 0, "details": []}`. -/
def emptyIssueStats : IssueStats := ⟨0, 0, 0, []⟩

/-- `get_issues` of `src/backend/app/services/github/repo_stats.py`
(lines 148–186): drop items carrying the `pull_request` key, then count
open/closed states and build the detail list from the remaining genuine
issues. -/
def get_issues (payload : Option (List IssueItem)) : IssueStats :=
  match payload with
  | none => emptyIssueStats
  | some issues =>
    if issues.isEmpty then emptyIssueStats
    else
      let actual_issues := issues.filter (fun i => !i.has_pull_request)
      { «open» := actual_issues.countP (fun i => i.state == some "open")
        closed := actual_issues.countP (fun i => i.state == some "closed")
        total := actual_issues.length
        details := actual_issues.map mkIssueDetail }

/-! ## Commit activity and the epoch → `YYYY-MM-DD` conversion

`datetime.fromtimestamp(week.get("week", 0)).strftime("%Y-%m-%d")` —
modelled in UTC (the civil-from-days algorithm on the floor-divided day
count); the Python call uses the server local time zone, which only shifts
which calendar day a boundary timestamp falls on, not the `YYYY-MM-DD`
shape. -/

/-- Civil date `(year, month, day)` from a count of days since the epoch
1970-01-01 (proleptic Gregorian calendar). -/
def civilFromDays (z0 : Int) : Int × Nat × Nat :=
  let z := z0 + 719468
  let era := Int.fdiv z 146097
  let doe := (z - era * 146097).toNat
  let yoe := (doe - doe / 1460 + doe / 36524 - doe / 146096) / 365
  let y := (yoe : Int) + era * 400
  let doy := doe - (365 * yoe + yoe / 4 - yoe / 100)
  let mp := (5 * doy + 2) / 153
  let d := doy - (153 * mp + 2) / 5 + 1
  let m := if mp < 10 then mp + 3 else mp - 9
  (if m ≤ 2 then y + 1 else y, m, d)

/-- Zero-pad a number to at least `w` digits (`strftime` zero-padding). -/
def padNum (w : Nat) (n : Nat) : String :=
  let s := toString n
  String.mk (List.replicate (w - s.length) '0') ++ s

/-- `datetime.fromtimestamp(secs).strftime("%Y-%m-%d")`, modelled in UTC. -/
def epochToDateString (secs : Int) : String :=
  let c := civilFromDays (Int.fdiv secs 86400)
  padNum 4 c.1.toNat ++ "-" ++ padNum 2 c.2.1 ++ "-" ++ padNum 2 c.2.2

example : epochToDateString 0 = "1970-01-01" := rfl
example : epochToDateString 1704067200 = "2024-01-01" := rfl
example : epochToDateString 951782400 = "2000-02-29" := rfl

/-- One decoded bucket of the commit-activity payload
(keys `week` — epoch seconds, `total`, `days`). -/
structure WeekItem where
  week : Option Int := none
  total : Option Nat := none
  days : Option (List Nat) := none
deriving Repr, DecidableEq

/-- One entry of the converted commit-activity list
(`week` now a `YYYY-MM-DD` string). -/
structure CommitActivity where
  week : String
  total : Nat
  days : List Nat
deriving Repr, DecidableEq

/-- The conversion applied to each retained bucket. -/
def weekToActivity (w : WeekItem) : CommitActivity where
  week := epochToDateString (w.week.getD 0)
  total := w.total.getD 0
  days := w.days.getD (List.replicate 7 0)

/-- `get_commit_activity` of
`src/backend/app/services/github/repo_stats.py` (lines 188–204):
keep `activity[-12:]` when more than 12 buckets arrived, all of them
otherwise, and convert each bucket (`if activity and isinstance(...)` also
sends the empty list to `[]`). -/
def get_commit_activity (payload : Option (List WeekItem)) : List CommitActivity :=
  match payload with
  | none => []
  | some activity =>
    if activity.isEmpty then []
    else
      let recent_activity :=
        if 12 < activity.length then activity.drop (activity.length - 12)
        else activity
      recent_activity.map weekToActivity

/-! ## Contributors, languages, releases -/

/-- One decoded item of the contributors payload. -/
structure ContributorItem where
  login : Option String := none
  avatar_url : Option String := none
  html_url : Option String := none
  contributions : Option Nat := none
  «type» : Option String := none
deriving Repr, DecidableEq

/-- One reshaped contributor record. -/
structure ContributorInfo where
  login : Option String
  avatar_url : Option String
  profile_url : Option String
  contributions : Nat
  «type» : String
deriving Repr, DecidableEq

/-- `get_contributors` of
`src/backend/app/services/github/repo_stats.py` (lines 76–93). -/
def get_contributors (payload : Option (List ContributorItem)) : List ContributorInfo :=
  match payload with
  | none => []
  | some cs =>
    if cs.isEmpty then []
    else
      cs.map (fun c =>
        { login := c.login
          avatar_url := c.avatar_url
          profile_url := c.html_url
          contributions := c.contributions.getD 0
          «type» := c.«type».getD "User" })

/-- One reshaped release record (from `get_releases`). -/
structure ReleaseInfo where
  tag_name : Option String
  name : Option String
  published_at : Option String
  url : Option String
  prerelease : Bool
deriving Repr, DecidableEq

/-! ## `get_comprehensive_stats` -/

/-- The `license` object of the repository-info payload. -/
structure LicenseItem where
  name : Option String := none
deriving Repr, DecidableEq

/-- The decoded repository-info payload (the keys `get_comprehensive_stats`
reads). -/
structure RepoInfoItem where
  name : Option String := none
  full_name : Option String := none
  description : Option String := none
  html_url : Option String := none
  stargazers_count : Option Nat := none
  forks_count : Option Nat := none
  watchers_count : Option Nat := none
  open_issues_count : Option Nat := none
  default_branch : Option String := none
  created_at : Option String := none
  updated_at : Option String := none
  pushed_at : Option String := none
  topics : Option (List String) := none
  license : Option LicenseItem := none
deriving Repr, DecidableEq

/-- The `repository` dict of the envelope. -/
structure RepositoryView where
  name : Option String
  full_name : Option String
  description : Option String
  url : Option String
  stars : Nat
  forks : Nat
  watchers : Nat
  open_issues_count : Nat
  default_branch : Option String
  created_at : Option String
  updated_at : Option String
  pushed_at : Option String
  topics : List String
  license : Option String
deriving Repr, DecidableEq

/-- The `repository` section built from `repo_info` (lines 283–298);
`repo_info.get("license", {}).get("name") if repo_info.get("license") else
None` becomes a match on the optional license object. -/
def mkRepositoryView (info : RepoInfoItem) : RepositoryView where
  name := info.name
  full_name := info.full_name
  description := info.description
  url := info.html_url
  stars := info.stargazers_count.getD 0
  forks := info.forks_count.getD 0
  watchers := info.watchers_count.getD 0
  open_issues_count := info.open_issues_count.getD 0
  default_branch := info.default_branch
  created_at := info.created_at
  updated_at := info.updated_at
  pushed_at := info.pushed_at
  topics := info.topics.getD []
  license := match info.license with
    | some l => l.name
    | none => none

/-- The `metrics` dict of the envelope (lines 305–312). -/
structure Metrics where
  total_contributors : Nat
  total_commits_recent : Nat
  stars : Nat
  forks : Nat
  open_prs : Nat
  open_issues : Nat
deriving Repr, DecidableEq

/-- The envelope returned by `get_comprehensive_stats` on success
(lines 280–313). -/
structure Envelope where
  status : String
  repo : String
  repository : RepositoryView
  contributors : List ContributorInfo
  pull_requests : PRStats
  issues : IssueStats
  commit_activity : List CommitActivity
  languages : List (String × Nat)
  releases : List ReleaseInfo
  metrics : Metrics
deriving Repr, DecidableEq

/-- An error escaping `get_comprehensive_stats`: the
`ValueError(f"Repository {owner}/{repo} not found")` raised when
`repo_info` is falsy, or any other exception (e.g. a decode failure),
re-raised by the outer `except`. -/
inductive StatsError where
  | repositoryNotFound (owner repo : String)
  | unexpected (desc : String)
deriving Repr, DecidableEq

/-- `str(e)` of a `StatsError`. -/
def statsErrorStr : StatsError → String
  | .repositoryNotFound owner repo => "Repository " ++ owner ++ "/" ++ repo ++ " not found"
  | .unexpected desc => desc

/-- The outcome of one task of the `asyncio.gather(...,
return_exceptions=True)` fan-out: either the fetcher's value or the
exception it raised. -/
structure FetchOutcomes where
  repo_info : Except String (Option RepoInfoItem)
  contributors : Except String (List ContributorInfo)
  pull_requests : Except String PRStats
  issues : Except String IssueStats
  commit_activity : Except String (List CommitActivity)
  languages : Except String (List (String × Nat))
  releases : Except String (List ReleaseInfo)

/-- `get_comprehensive_stats` of
`src/backend/app/services/github/repo_stats.py` (lines 231–317), as a
function of the seven gather outcomes: each exception is replaced by the
category's empty default (lines 252–272); a falsy `repo_info` raises the
not-found `ValueError` (lines 274–275); otherwise the envelope is built
with the derived metrics (lines 277–313). -/
def get_comprehensive_stats (owner repo : String) (g : FetchOutcomes) :
    Except StatsError Envelope :=
  let repo_info := match g.repo_info with
    | .error _ => none
    | .ok v => v
  let contributors := match g.contributors with
    | .error _ => []
    | .ok v => v
  let pull_requests := match g.pull_requests with
    | .error _ => emptyPRStats
    | .ok v => v
  let issues := match g.issues with
    | .error _ => emptyIssueStats
    | .ok v => v
  let commit_activity := match g.commit_activity with
    | .error _ => []
    | .ok v => v
  let languages := match g.languages with
    | .error _ => []
    | .ok v => v
  let releases := match g.releases with
    | .error _ => []
    | .ok v => v
  match repo_info with
  | none => .error (.repositoryNotFound owner repo)
  | some info =>
    let total_commits := (commit_activity.map (fun week => week.total)).sum
    .ok
      { status := "success"
        repo := owner ++ "/" ++ repo
        repository := mkRepositoryView info
        contributors := contributors
        pull_requests := pull_requests
        issues := issues
        commit_activity := commit_activity
        languages := languages
        releases := releases
        metrics :=
          { total_contributors := contributors.length
            total_commits_recent := total_commits
            stars := info.stargazers_count.getD 0
            forks := info.forks_count.getD 0
            open_prs := pull_requests.«open»
            open_issues := issues.«open» } }

/-! ## The `analyze_repository` request handler -/

/-- The handler response: either the envelope (FastAPI serializes the
returned dict) or an `HTTPException(status_code, detail)`. -/
inductive HandlerResult where
  | success (env : Envelope)
  | httpError (status : Nat) (detail : String)
deriving Repr, DecidableEq

/-- `analyze_repository` of `src/backend/app/api/v1/repo_stats.py`
(lines 148–185), as a function of the request string and of the
aggregation outcome for the parsed identifier: a parse `ValueError` →
`HTTPException(400, str(e))`; the aggregation's not-found `ValueError` →
`HTTPException(404, str(e))`; any other exception →
`HTTPException(500, f"Failed to analyze repository: {e}")`. -/
def analyze_repository (repo_url : String)
    (agg : String → String → Except StatsError Envelope) : HandlerResult :=
  match parse_repo_url repo_url with
  | .error e => .httpError 400 (parseErrorStr e)
  | .ok (owner, repo) =>
    match agg owner repo with
    | .ok env => .success env
    | .error (.repositoryNotFound o r) =>
      .httpError 404 (statsErrorStr (.repositoryNotFound o r))
    | .error (.unexpected d) =>
      .httpError 500 ("Failed to analyze repository: " ++ d)

/-! ## Theorems -/

/-- The derived tri-state display classification of a pull request, as the
spec states it: raw `state == "open"` → `open`; else a present merge
timestamp → `merged`; else → `closed`. -/
def prDisplayState (pr : PRItem) : String :=
  if pr.state.getD "open" == "open" then "open"
  else if pr.merged_at.isSome then "merged"
  else "closed"

/-- Characterization of the `get_pull_requests` loop: each item bumps the
counter of its display state and appends its detail record in order. -/
theorem prFoldl_spec (prs : List PRItem) (acc : PRStats) :
    (prs.foldl prStep acc).«open»
        = acc.«open» + prs.countP (fun pr => prDisplayState pr == "open") ∧
    (prs.foldl prStep acc).merged
        = acc.merged + prs.countP (fun pr => prDisplayState pr == "merged") ∧
    (prs.foldl prStep acc).closed
        = acc.closed + prs.countP (fun pr => prDisplayState pr == "closed") ∧
    (prs.foldl prStep acc).total = acc.total ∧
    (prs.foldl prStep acc).details
        = acc.details ++ prs.map (fun pr => mkPRDetail pr (prDisplayState pr)) := by
  induction prs generalizing acc with
  | nil => simp
  | cons pr rest ih =>
    obtain ⟨h1, h2, h3, h4, h5⟩ := ih (prStep acc pr)
    refine ⟨?_, ?_, ?_, ?_, ?_⟩ <;>
      simp only [List.foldl_cons, List.countP_cons, List.map_cons, h1, h2, h3, h4, h5] <;>
      by_cases ho : (pr.state.getD "open" == "open") <;>
      by_cases hm : pr.merged_at.isSome <;>
      simp [prStep, prDisplayState, ho, hm] <;> omega

/-- The three display states partition every pull-request list. -/
theorem prDisplayState_partition (prs : List PRItem) :
    prs.countP (fun pr => prDisplayState pr == "open")
      + prs.countP (fun pr => prDisplayState pr == "closed")
      + prs.countP (fun pr => prDisplayState pr == "merged")
      = prs.length := by
  induction prs with
  | nil => simp
  | cons pr rest ih =>
    simp only [List.countP_cons, List.length_cons]
    have h3 : ((prDisplayState pr == "open") = true
          ∧ (prDisplayState pr == "closed") = false
          ∧ (prDisplayState pr == "merged") = false)
        ∨ ((prDisplayState pr == "open") = false
          ∧ (prDisplayState pr == "closed") = false
          ∧ (prDisplayState pr == "merged") = true)
        ∨ ((prDisplayState pr == "open") = false
          ∧ (prDisplayState pr == "closed") = true
          ∧ (prDisplayState pr == "merged") = false) := by
      unfold prDisplayState
      by_cases ho : (pr.state.getD "open" == "open") <;>
        by_cases hm : pr.merged_at.isSome <;>
        simp only [ho, hm, if_true, if_false, Bool.false_eq_true] <;> decide
    rcases h3 with ⟨a, b, c⟩ | ⟨a, b, c⟩ | ⟨a, b, c⟩ <;> rw [a, b, c] <;> simp <;> omega

/-- Closed form of `get_pull_requests` on a decoded list: counters count the
display states, `total` is the payload length, `details` maps the items in
order. -/
theorem get_pull_requests_some_eq (prs : List PRItem) :
    get_pull_requests (some prs) =
      { «open» := prs.countP (fun pr => prDisplayState pr == "open")
        closed := prs.countP (fun pr => prDisplayState pr == "closed")
        merged := prs.countP (fun pr => prDisplayState pr == "merged")
        total := prs.length
        details := prs.map (fun pr => mkPRDetail pr (prDisplayState pr)) } := by
  obtain ⟨h1, h2, h3, h4, h5⟩ := prFoldl_spec prs emptyPRStats
  cases prs with
  | nil => simp [get_pull_requests, emptyPRStats]
  | cons p rest =>
    have he : get_pull_requests (some (p :: rest))
        = { (p :: rest).foldl prStep emptyPRStats with total := (p :: rest).length } := rfl
    rw [he]
    rw [show ({ (p :: rest).foldl prStep emptyPRStats with total := (p :: rest).length } : PRStats)
        = ⟨((p :: rest).foldl prStep emptyPRStats).«open»,
           ((p :: rest).foldl prStep emptyPRStats).closed,
           ((p :: rest).foldl prStep emptyPRStats).merged,
           (p :: rest).length,
           ((p :: rest).foldl prStep emptyPRStats).details⟩ from rfl]
    rw [h1, h2, h3, h5]
    simp [emptyPRStats]

/-- C2: every fetched pull-request item is classified `open` when its raw
state equals `"open"` (whatever `merged_at` is), else `merged` when a merge
timestamp is present (even when the raw state is `"closed"`), else
`closed`; the detail records carry exactly that classification, and the
`open`/`merged`/`closed` counters each count the items so classified. -/
theorem get_pull_requests_display_state_and_counts (prs : List PRItem) :
    ((get_pull_requests (some prs)).details.map (fun d => d.state)
        = prs.map prDisplayState) ∧
    (get_pull_requests (some prs)).«open»
        = prs.countP (fun pr => prDisplayState pr == "open") ∧
    (get_pull_requests (some prs)).merged
        = prs.countP (fun pr => prDisplayState pr == "merged") ∧
    (get_pull_requests (some prs)).closed
        = prs.countP (fun pr => prDisplayState pr == "closed") ∧
    (∀ pr : PRItem, pr.state.getD "open" = "open" → prDisplayState pr = "open") ∧
    (∀ pr : PRItem, pr.state.getD "open" ≠ "open" → pr.merged_at.isSome →
        prDisplayState pr = "merged") ∧
    (∀ pr : PRItem, pr.state.getD "open" ≠ "open" → pr.merged_at = none →
        prDisplayState pr = "closed") := by
  rw [get_pull_requests_some_eq]
  refine ⟨?_, rfl, rfl, rfl, ?_, ?_, ?_⟩
  · simp [mkPRDetail]
  · intro pr hpr
    simp [prDisplayState, hpr]
  · intro pr hpr hm
    simp [prDisplayState, hpr, hm]
  · intro pr hpr hm
    simp [prDisplayState, hpr, hm]

/-- C2 witness: a pull request with raw state `"closed"` and a merge
timestamp is displayed `merged`, one with raw state `"open"` and a merge
timestamp stays `open`, and the counters follow. -/
theorem get_pull_requests_display_state_and_counts_witness :
    ((get_pull_requests (some
        [{ state := some "closed", merged_at := some "2024-01-02T03:04:05Z" },
         { state := some "open", merged_at := some "2024-01-02T03:04:05Z" }])).details.map
          (fun d => d.state) = ["merged", "open"]) ∧
    prDisplayState { state := some "closed", merged_at := some "2024-01-02T03:04:05Z" }
      = "merged" ∧
    prDisplayState { state := some "open", merged_at := some "2024-01-02T03:04:05Z" }
      = "open" := by
  have h := get_pull_requests_display_state_and_counts
    [{ state := some "closed", merged_at := some "2024-01-02T03:04:05Z" },
     { state := some "open", merged_at := some "2024-01-02T03:04:05Z" }]
  refine ⟨?_, ?_, ?_⟩
  · rw [h.1]
    rfl
  · exact h.2.2.2.2.2.1
      { state := some "closed", merged_at := some "2024-01-02T03:04:05Z" }
      (by decide) (by decide)
  · exact h.2.2.2.2.1
      { state := some "open", merged_at := some "2024-01-02T03:04:05Z" }
      (by decide)

/-- C10: for every `get_pull_requests` result — the empty default for a
failed or non-list payload included — `open + closed + merged = total`,
`total` equals the length of `details`, and `details` lists the items in
payload order. -/
theorem get_pull_requests_invariant (payload : Option (List PRItem)) :
    (get_pull_requests payload).«open» + (get_pull_requests payload).closed
        + (get_pull_requests payload).merged = (get_pull_requests payload).total ∧
    (get_pull_requests payload).total = (get_pull_requests payload).details.length ∧
    (get_pull_requests payload).details
        = (payload.getD []).map (fun pr => mkPRDetail pr (prDisplayState pr)) := by
  cases payload with
  | none => simp [get_pull_requests, emptyPRStats]
  | some prs =>
    rw [get_pull_requests_some_eq]
    refine ⟨prDisplayState_partition prs, ?_, rfl⟩
    simp

/-- C6: `get_issues` drops every item carrying the `pull_request` linkage
key from counts and details, so `total` is the number of items without the
key and `details` keeps exactly those; in particular one linked and one
genuine item give `total = 1` with only the genuine item listed. -/
theorem get_issues_filters_pull_requests (issues : List IssueItem) :
    (get_issues (some issues)).total
        = (issues.filter (fun i => !i.has_pull_request)).length ∧
    (get_issues (some issues)).details
        = (issues.filter (fun i => !i.has_pull_request)).map mkIssueDetail ∧
    (∀ a b : IssueItem, a.has_pull_request = true → b.has_pull_request = false →
      (get_issues (some [a, b])).total = 1 ∧
      (get_issues (some [a, b])).details = [mkIssueDetail b]) := by
  refine ⟨?_, ?_, ?_⟩
  · cases issues with
    | nil => simp [get_issues, emptyIssueStats]
    | cons i rest => rfl
  · cases issues with
    | nil => simp [get_issues, emptyIssueStats]
    | cons i rest => rfl
  · intro a b ha hb
    constructor
    · show ([a, b].filter (fun i => !i.has_pull_request)).length = 1
      simp [List.filter, ha, hb]
    · show ([a, b].filter (fun i => !i.has_pull_request)).map mkIssueDetail
          = [mkIssueDetail b]
      simp [List.filter, ha, hb]

/-- C6 witness: a payload of one pull-request-linked item and one genuine
issue yields `total = 1` and only the genuine issue in `details`. -/
theorem get_issues_filters_pull_requests_witness :
    (get_issues (some [{ has_pull_request := true, number := some 7 },
                       { has_pull_request := false, number := some 8 }])).total = 1 ∧
    (get_issues (some [{ has_pull_request := true, number := some 7 },
                       { has_pull_request := false, number := some 8 }])).details
      = [mkIssueDetail { has_pull_request := false, number := some 8 }] :=
  (get_issues_filters_pull_requests []).2.2
    { has_pull_request := true, number := some 7 }
    { has_pull_request := false, number := some 8 } rfl rfl

/-- C7: with more than 12 weekly buckets, `get_commit_activity` keeps
exactly the last 12 in order; with at most 12 it keeps the whole payload;
each retained bucket's epoch `week` is converted to a `YYYY-MM-DD` date
string by `weekToActivity`. -/
theorem get_commit_activity_trims_to_last_12 (act : List WeekItem) :
    (12 < act.length →
      get_commit_activity (some act)
          = (act.drop (act.length - 12)).map weekToActivity ∧
      (get_commit_activity (some act)).length = 12) ∧
    (act.length ≤ 12 → get_commit_activity (some act) = act.map weekToActivity) ∧
    (∀ w : WeekItem, (weekToActivity w).week = epochToDateString (w.week.getD 0)) ∧
    epochToDateString 0 = "1970-01-01" := by
  refine ⟨?_, ?_, fun w => rfl, rfl⟩
  · intro hlen
    have hne : act.isEmpty = false := by
      cases act with
      | nil => simp at hlen
      | cons a rest => rfl
    constructor
    · simp [get_commit_activity, hne, hlen]
    · simp [get_commit_activity, hne, hlen]
      omega
  · intro hlen
    cases act with
    | nil => simp [get_commit_activity]
    | cons a rest =>
      have h12 : ¬ (12 < rest.length + 1) := by
        simp only [List.length_cons] at hlen
        omega
      simp [get_commit_activity, h12]

/-- C7 witness: a 20-bucket payload is trimmed to exactly the last 12, and
the epoch origin formats as `1970-01-01`. -/
theorem get_commit_activity_trims_to_last_12_witness :
    (get_commit_activity (some (List.replicate 20
        ({ week := some 0, total := some 3 } : WeekItem)))).length = 12 ∧
    epochToDateString 0 = "1970-01-01" :=
  ⟨((get_commit_activity_trims_to_last_12
      (List.replicate 20 { week := some 0, total := some 3 })).1 (by simp)).2,
   (get_commit_activity_trims_to_last_12 []).2.2.2⟩

/-- C3: when the repository-info fetch yields no result — a not-found
(`None`) payload or a raised exception — `get_comprehensive_stats` fails
with the not-found error naming `owner/repo`, whatever the six other
outcomes are; and whenever repository info is present the operation
succeeds, so no other category's absence can fail it. -/
theorem get_comprehensive_stats_requires_repo_info (owner repo : String)
    (g : FetchOutcomes) :
    (∀ e, g.repo_info = .error e →
      get_comprehensive_stats owner repo g
        = .error (.repositoryNotFound owner repo)) ∧
    (g.repo_info = .ok none →
      get_comprehensive_stats owner repo g
        = .error (.repositoryNotFound owner repo)) ∧
    (∀ info, g.repo_info = .ok (some info) →
      (get_comprehensive_stats owner repo g).isOk = true) := by
  refine ⟨?_, ?_, ?_⟩
  · intro e he
    simp [get_comprehensive_stats, he]
  · intro he
    simp [get_comprehensive_stats, he]
  · intro info he
    simp only [get_comprehensive_stats, he]
    rfl

/-- C3 witness: a not-found repository-info outcome fails the whole
operation even when every other category fetched fine, and a present one
makes it succeed. -/
theorem get_comprehensive_stats_requires_repo_info_witness :
    get_comprehensive_stats "octo" "demo"
        ⟨.ok none, .ok [], .ok emptyPRStats, .ok emptyIssueStats, .ok [], .ok [], .ok []⟩
      = .error (.repositoryNotFound "octo" "demo") ∧
    get_comprehensive_stats "octo" "demo"
        ⟨.error "boom", .ok [], .ok emptyPRStats, .ok emptyIssueStats, .ok [], .ok [], .ok []⟩
      = .error (.repositoryNotFound "octo" "demo") ∧
    (get_comprehensive_stats "octo" "demo"
        ⟨.ok (some {}), .ok [], .ok emptyPRStats, .ok emptyIssueStats, .ok [], .ok [], .ok []⟩).isOk
      = true :=
  ⟨(get_comprehensive_stats_requires_repo_info "octo" "demo"
      ⟨.ok none, .ok [], .ok emptyPRStats, .ok emptyIssueStats, .ok [], .ok [], .ok []⟩).2.1 rfl,
   (get_comprehensive_stats_requires_repo_info "octo" "demo"
      ⟨.error "boom", .ok [], .ok emptyPRStats, .ok emptyIssueStats, .ok [], .ok [], .ok []⟩).1 "boom" rfl,
   (get_comprehensive_stats_requires_repo_info "octo" "demo"
      ⟨.ok (some {}), .ok [], .ok emptyPRStats, .ok emptyIssueStats, .ok [], .ok [], .ok []⟩).2.2 {} rfl⟩

/-- C4: a raising per-category fetcher is individually replaced by its
empty default and never aborts the rest: with repository info present, a
failed contributors fetch still yields a `"success"` envelope with empty
`contributors` and `metrics.total_contributors = 0`; and even all six
non-info categories failing at once yield the fully defaulted `"success"`
envelope. -/
theorem get_comprehensive_stats_absorbs_category_failures
    (owner repo : String) (g : FetchOutcomes) (info : RepoInfoItem) (e : String)
    (hinfo : g.repo_info = .ok (some info)) :
    (g.contributors = .error e →
      (get_comprehensive_stats owner repo g).map
          (fun env => (env.status, env.contributors, env.metrics.total_contributors))
        = .ok ("success", [], 0)) ∧
    (∀ e1 e2 e3 e4 e5 e6 : String,
      get_comprehensive_stats owner repo
          ⟨.ok (some info), .error e1, .error e2, .error e3, .error e4, .error e5, .error e6⟩
        = .ok
          { status := "success"
            repo := owner ++ "/" ++ repo
            repository := mkRepositoryView info
            contributors := []
            pull_requests := emptyPRStats
            issues := emptyIssueStats
            commit_activity := []
            languages := []
            releases := []
            metrics :=
              { total_contributors := 0
                total_commits_recent := 0
                stars := info.stargazers_count.getD 0
                forks := info.forks_count.getD 0
                open_prs := 0
                open_issues := 0 } }) := by
  constructor
  · intro hc
    simp [get_comprehensive_stats, hinfo, hc, Except.map]
  · intro e1 e2 e3 e4 e5 e6
    simp [get_comprehensive_stats, emptyPRStats, emptyIssueStats]

/-- C4 witness: with repository info present and the contributors fetch
raising, the result is a `"success"` envelope with no contributors. -/
theorem get_comprehensive_stats_absorbs_category_failures_witness :
    (get_comprehensive_stats "octo" "demo"
        ⟨.ok (some {}), .error "timeout", .ok emptyPRStats, .ok emptyIssueStats,
         .ok [], .ok [], .ok []⟩).map
        (fun env => (env.status, env.contributors, env.metrics.total_contributors))
      = .ok ("success", [], 0) :=
  (get_comprehensive_stats_absorbs_category_failures "octo" "demo"
    ⟨.ok (some {}), .error "timeout", .ok emptyPRStats, .ok emptyIssueStats,
     .ok [], .ok [], .ok []⟩ {} "timeout" rfl).1 rfl

/-- C8: on every successful `get_comprehensive_stats` result the derived
metrics agree with the already-fetched sections:
`total_commits_recent` is the sum of `total` over the retained
commit-activity weeks, `open_prs` is `pull_requests.open`, `open_issues`
is `issues.open`, and `total_contributors` is the number of contributors. -/
theorem get_comprehensive_stats_metrics (owner repo : String)
    (g : FetchOutcomes) (env : Envelope)
    (h : get_comprehensive_stats owner repo g = .ok env) :
    env.metrics.total_commits_recent
        = (env.commit_activity.map (fun week => week.total)).sum ∧
    env.metrics.open_prs = env.pull_requests.«open» ∧
    env.metrics.open_issues = env.issues.«open» ∧
    env.metrics.total_contributors = env.contributors.length := by
  rcases hg : g.repo_info with e | v
  · simp [get_comprehensive_stats, hg] at h
  · cases v with
    | none => simp [get_comprehensive_stats, hg] at h
    | some info =>
      simp only [get_comprehensive_stats, hg] at h
      rw [Except.ok.injEq] at h
      subst h
      exact ⟨rfl, rfl, rfl, rfl⟩

/-- A concrete seven-outcome gather used to exercise the metrics
derivation. -/
def sampleOutcomes : FetchOutcomes :=
  ⟨.ok (some {}), .ok [],
   .ok { «open» := 2, closed := 1, merged := 3, total := 6, details := [] },
   .ok { «open» := 4, closed := 0, total := 4, details := [] },
   .ok [{ week := "1970-01-01", total := 5, days := [] },
        { week := "1970-01-08", total := 7, days := [] }],
   .ok [], .ok []⟩

/-- The envelope `get_comprehensive_stats` builds from `sampleOutcomes`. -/
def sampleEnvelope : Envelope :=
  { status := "success"
    repo := "octo/demo"
    repository := mkRepositoryView {}
    contributors := []
    pull_requests := { «open» := 2, closed := 1, merged := 3, total := 6, details := [] }
    issues := { «open» := 4, closed := 0, total := 4, details := [] }
    commit_activity := [{ week := "1970-01-01", total := 5, days := [] },
                        { week := "1970-01-08", total := 7, days := [] }]
    languages := []
    releases := []
    metrics :=
      { total_contributors := 0
        total_commits_recent := 12
        stars := 0
        forks := 0
        open_prs := 2
        open_issues := 4 } }

/-- C8 witness: a concrete successful result whose metrics match its
sections. -/
theorem get_comprehensive_stats_metrics_witness :
    sampleEnvelope.metrics.total_commits_recent
        = (sampleEnvelope.commit_activity.map (fun week => week.total)).sum ∧
    sampleEnvelope.metrics.open_prs = sampleEnvelope.pull_requests.«open» ∧
    sampleEnvelope.metrics.open_issues = sampleEnvelope.issues.«open» ∧
    sampleEnvelope.metrics.total_contributors = sampleEnvelope.contributors.length :=
  get_comprehensive_stats_metrics "octo" "demo" sampleOutcomes sampleEnvelope rfl

/-- C9: an input matching neither the URL pattern nor the shorthand pattern
after normalization fails with the InvalidFormat error carrying the
normalized input and both accepted syntaxes, and its message quotes all
three. -/
theorem parse_repo_url_invalid_format (s : String)
    (h1 : searchUrlPattern (normalizeInput s.toList) = none)
    (h2 : matchShortPattern (normalizeInput s.toList) = none) :
    parse_repo_url s
      = .error (.invalidFormat (String.mk (normalizeInput s.toList))
          "owner/repo" "https://github.com/owner/repo") ∧
    parseErrorStr (.invalidFormat (String.mk (normalizeInput s.toList))
        "owner/repo" "https://github.com/owner/repo")
      = "Invalid repository format: " ++ sqc ++ String.mk (normalizeInput s.toList)
          ++ sqc ++ ". Expected: " ++ sqc ++ "owner/repo" ++ sqc ++ " or " ++ sqc
          ++ "https://github.com/owner/repo" ++ sqc := by
  refine ⟨?_, rfl⟩
  simp only [parse_repo_url, h1, h2]

/-- C9 witness: `"not a valid repo"` fails with InvalidFormat. -/
theorem parse_repo_url_invalid_format_witness :
    parse_repo_url "not a valid repo"
      = .error (.invalidFormat "not a valid repo" "owner/repo"
          "https://github.com/owner/repo") :=
  (parse_repo_url_invalid_format "not a valid repo" rfl rfl).1

/-- C5: `analyze_repository` maps a parse failure to a 400 response whose
detail echoes the two accepted syntaxes, an aggregation not-found failure
to a 404 response naming `owner/repo`, and any other aggregation failure
to a 500 response embedding the underlying failure description. -/
theorem analyze_repository_error_mapping (repo_url : String)
    (agg : String → String → Except StatsError Envelope) :
    (∀ n f1 f2, parse_repo_url repo_url = .error (.invalidFormat n f1 f2) →
      analyze_repository repo_url agg
          = .httpError 400 ("Invalid repository format: " ++ sqc ++ n ++ sqc
              ++ ". Expected: " ++ sqc ++ f1 ++ sqc ++ " or " ++ sqc ++ f2 ++ sqc)
        ∧ f1 = "owner/repo" ∧ f2 = "https://github.com/owner/repo") ∧
    (∀ owner repo o r, parse_repo_url repo_url = .ok (owner, repo) →
      agg owner repo = .error (.repositoryNotFound o r) →
      analyze_repository repo_url agg
        = .httpError 404 ("Repository " ++ o ++ "/" ++ r ++ " not found")) ∧
    (∀ owner repo d, parse_repo_url repo_url = .ok (owner, repo) →
      agg owner repo = .error (.unexpected d) →
      analyze_repository repo_url agg
        = .httpError 500 ("Failed to analyze repository: " ++ d)) := by
  refine ⟨?_, ?_, ?_⟩
  · intro n f1 f2 h
    have hforms : f1 = "owner/repo" ∧ f2 = "https://github.com/owner/repo" := by
      simp only [parse_repo_url] at h
      cases hu : searchUrlPattern (normalizeInput repo_url.toList) with
      | some p =>
        obtain ⟨o, r⟩ := p
        rw [hu] at h
        exact Except.noConfusion h
      | none =>
        rw [hu] at h
        cases hs : matchShortPattern (normalizeInput repo_url.toList) with
        | some p =>
          obtain ⟨o, r⟩ := p
          rw [hs] at h
          exact Except.noConfusion h
        | none =>
          rw [hs] at h
          have h3 : ParseError.invalidFormat (String.mk (normalizeInput repo_url.toList))
              "owner/repo" "https://github.com/owner/repo"
              = ParseError.invalidFormat n f1 f2 := Except.error.inj h
          injection h3 with e1 e2 e3
          exact ⟨e2.symm, e3.symm⟩
    refine ⟨?_, hforms.1, hforms.2⟩
    simp only [analyze_repository, h, parseErrorStr]
  · intro owner repo o r hp ha
    simp only [analyze_repository, hp, ha, statsErrorStr]
  · intro owner repo d hp ha
    simp only [analyze_repository, hp, ha]

/-- C5 witness: the three outcome mappings at concrete inputs — malformed
identifier → 400, not-found aggregation → 404, unexpected aggregation
failure → 500. -/
theorem analyze_repository_error_mapping_witness :
    analyze_repository "bad input!!!"
        (fun _ _ => .error (.unexpected "x"))
      = .httpError 400 ("Invalid repository format: " ++ sqc ++ "bad input!!!"
          ++ sqc ++ ". Expected: " ++ sqc ++ "owner/repo" ++ sqc ++ " or "
          ++ sqc ++ "https://github.com/owner/repo" ++ sqc) ∧
    analyze_repository "octo/demo"
        (fun _ _ => .error (.repositoryNotFound "octo" "demo"))
      = .httpError 404 ("Repository " ++ "octo" ++ "/" ++ "demo" ++ " not found") ∧
    analyze_repository "octo/demo" (fun _ _ => .error (.unexpected "boom"))
      = .httpError 500 ("Failed to analyze repository: " ++ "boom") :=
  ⟨((analyze_repository_error_mapping "bad input!!!"
      (fun _ _ => .error (.unexpected "x"))).1
        "bad input!!!" "owner/repo" "https://github.com/owner/repo" rfl).1,
   (analyze_repository_error_mapping "octo/demo"
      (fun _ _ => .error (.repositoryNotFound "octo" "demo"))).2.1
        "octo" "demo" "octo" "demo" rfl rfl,
   (analyze_repository_error_mapping "octo/demo"
      (fun _ _ => .error (.unexpected "boom"))).2.2
        "octo" "demo" "boom" rfl rfl⟩

/-- C1: evaluation at the failing input. The normalization's
`rstrip(".git")` removes any trailing run of the characters
`.`, `g`, `i`, `t` — not the literal `.git` suffix — so the valid
shorthand `facebook/react` (and its URL form) parses to
`("facebook", "reac")` instead of returning the pair unchanged; an input
whose repo name ends in none of those characters does round-trip, with the
`.git` suffix and a trailing slash trimmed as described. -/
theorem parse_repo_url_rstrip_charset_eval :
    parse_repo_url "facebook/react" = .ok ("facebook", "reac") ∧
    parse_repo_url "https://github.com/facebook/react" = .ok ("facebook", "reac") ∧
    pyRstrip ['.', 'g', 'i', 't'] "facebook/react".toList = "facebook/reac".toList ∧
    parse_repo_url "octocat/Hello-World" = .ok ("octocat", "Hello-World") ∧
    parse_repo_url "https://github.com/octocat/Hello-World.git" = .ok ("octocat", "Hello-World") ∧
    parse_repo_url "https://github.com/octocat/Hello-World/" = .ok ("octocat", "Hello-World") :=
  ⟨rfl, rfl, rfl, rfl, rfl, rfl⟩
